import Mathlib

/-!
Verification development for the satellite-imagery dashboard
(`app.py`, `pages/graph.py`).

The application orchestrates Google Earth Engine (GEE) calls.  We shallowly
embed the program's own logic together with a faithful model of the GEE
primitives it invokes (`filterBounds`, `filterDate`, `bitwiseAnd`/`eq`/
`updateMask`, `median`, `expression`, `reduceRegion`), as documented by the
Earth Engine API:

* rasters are functions from an abstract pixel index to an optional rational
  value (`none` = masked / no-data pixel);
* geometries are finite sets of pixel indices; `filterBounds` keeps scenes
  whose footprint meets the region;
* `filterDate(start, end)` keeps scenes acquired at `start ≤ t < end` — the
  end bound is EXCLUSIVE per the Earth Engine API reference;
* division by zero inside `expression` produces a masked pixel;
* `reduceRegion` aggregates the unmasked pixels of each band inside the
  geometry and returns a dictionary keyed `"<band>_<stat>"`.

Irrational operations performed server-side in floating point (`sqrt`,
general `pow`, the standard deviation) are kept abstract through an
`ExtraOps` record, so every definition stays executable.
-/

/-- A single raster band: pixel index → optional value (`none` = masked). -/
def Raster : Type := Nat → Option Rat

/-- A geometry: the finite set of pixel indices it covers. -/
def Geometry : Type := List Nat

instance : DecidableEq Geometry := inferInstanceAs (DecidableEq (List Nat))

/-- An Earth Engine image: a list of band names and per-band rasters. -/
structure EEImage where
  bandNames : List String
  pix : String → Nat → Option Rat

/-- Models `image.select(b)`: the single-band image holding band `b` of `img`. -/
def EEImage.select (img : EEImage) (b : String) : EEImage :=
  { bandNames := [b], pix := fun b' p => if b' = b then img.pix b p else none }

/-- An acquisition date, at day granularity: year and 0-based day-of-year.
Ordered lexicographically; this is order-isomorphic to the millisecond
timestamps GEE compares, restricted to the day boundaries the program uses. -/
structure EEDate where
  year : Nat
  doy : Nat
  deriving DecidableEq, Repr

/-- Strict order on dates (lexicographic). -/
def dateLt (a b : EEDate) : Bool :=
  a.year < b.year || (a.year = b.year && a.doy < b.doy)

/-- Non-strict order on dates. -/
def dateLe (a b : EEDate) : Bool :=
  a.year < b.year || (a.year = b.year && a.doy ≤ b.doy)

/-- Gregorian leap-year rule, used to locate December 31 inside a year. -/
def isLeap (y : Nat) : Bool :=
  (y % 4 = 0 && y % 100 ≠ 0) || y % 400 = 0

/-- Number of days of year `y`. -/
def daysInYear (y : Nat) : Nat := if isLeap y then 366 else 365

/-- 0-based day-of-year of the calendar date `y`-12-31 (December 31). -/
def dec31doy (y : Nat) : Nat := daysInYear y - 1

/-- The date `y`-01-01 as parsed from the string `f"{year}-01-01"`. -/
def jan1 (y : Nat) : EEDate := ⟨y, 0⟩

/-- The date `y`-12-31 as parsed from the string `f"{year}-12-31"`. -/
def dec31 (y : Nat) : EEDate := ⟨y, dec31doy y⟩

/-- One satellite scene: its image, footprint, acquisition date, and
scene-level metadata properties (e.g. `CLOUDY_PIXEL_PERCENTAGE`). -/
structure Scene where
  img : EEImage
  footprint : Geometry
  date : EEDate
  props : String → Option Rat

/-- Two geometries intersect when they share a covered pixel. -/
def intersects (g1 g2 : Geometry) : Bool :=
  List.any g1 (fun p => List.contains g2 p)

/-- Models `ee.ImageCollection.filterBounds(region)`. -/
def filterBounds (scenes : List Scene) (region : Geometry) : List Scene :=
  scenes.filter (fun s => intersects s.footprint region)

/-- Models `ee.ImageCollection.filterDate(start, stop)`: keeps scenes with
`start ≤ date < stop`; the end bound is exclusive per the GEE API. -/
def filterDate (scenes : List Scene) (start stop : EEDate) : List Scene :=
  scenes.filter (fun s => dateLe start s.date && dateLt s.date stop)

/-- Models `ee.Filter.lt(key, v)`: keeps scenes whose property `key` exists
and is `< v` (scenes lacking the property are dropped). -/
def scenePropLt (s : Scene) (key : String) (v : Rat) : Bool :=
  match s.props key with
  | some x => decide (x < v)
  | none => false

/-- The `cloud_mask_band` / `cloud_mask_value` pair of a dataset entry. -/
structure CloudMask where
  band : String
  value : Nat
  deriving DecidableEq, Repr

/-- One entry of the `datasets` dictionary of `app.py`. -/
structure DatasetProfile where
  collection : String
  cloud_mask : Option CloudMask
  bands : List String
  year_range : Nat × Nat

/-- The keys of the `datasets` dictionary of `app.py`. -/
inductive DatasetName
  | sentinel2
  | landsat5
  | landsat7
  | landsat8
  | modis
  deriving DecidableEq, Repr

/-- The `datasets` dictionary of `app.py` (lines 25-59), transcribed.
`bands` are, positionally: 0-Red, 1-Blue, 2-Green, 3-NIR, 4-Red Edge
(per the source's own comment). -/
def datasets : DatasetName → DatasetProfile
  | .sentinel2 =>
    { collection := "COPERNICUS/S2_SR_HARMONIZED"
      cloud_mask := none
      bands := ["B4", "B3", "B2", "B8", "B5"]
      year_range := (2019, 2023) }
  | .landsat5 =>
    { collection := "LANDSAT/LT05/C02/T1_L2"
      cloud_mask := some ⟨"QA_PIXEL", 1 <<< 1 ||| 1 <<< 3 ||| 1 <<< 4⟩
      bands := ["SR_B3", "SR_B2", "SR_B1", "SR_B4", "SR_B3"]
      year_range := (1985, 2011) }
  | .landsat7 =>
    { collection := "LANDSAT/LE07/C02/T1_L2"
      cloud_mask := some ⟨"QA_PIXEL", 1 <<< 1 ||| 1 <<< 3 ||| 1 <<< 4 ||| 1 <<< 5⟩
      bands := ["SR_B3", "SR_B2", "SR_B1", "SR_B4", "SR_B3"]
      year_range := (2000, 2023) }
  | .landsat8 =>
    { collection := "LANDSAT/LC08/C02/T1_L2"
      cloud_mask := some ⟨"QA_PIXEL", 1 <<< 1 ||| 1 <<< 2 ||| 1 <<< 3 ||| 1 <<< 4 ||| 1 <<< 5⟩
      bands := ["SR_B4", "SR_B3", "SR_B2", "SR_B5", "SR_B4"]
      year_range := (2014, 2023) }
  | .modis =>
    { collection := "MODIS/006/MOD09GA"
      cloud_mask := some ⟨"state_1km", 1 <<< 10 ||| 1 <<< 11⟩
      bands := ["sur_refl_b01", "sur_refl_b04", "sur_refl_b03", "sur_refl_b02", "sur_refl_b01"]
      year_range := (2001, 2022) }

/-- The abstract syntax of the index formula strings of `app.py`
(arithmetic over band variables, `sqrt` and `pow`). -/
inductive IndexExpr
  | var (name : String)
  | const (q : Rat)
  | add (a b : IndexExpr)
  | sub (a b : IndexExpr)
  | mul (a b : IndexExpr)
  | div (a b : IndexExpr)
  | sqrtE (a : IndexExpr)
  | powE (a b : IndexExpr)
  deriving DecidableEq, Repr

/-- Abstract implementations for the operations that GEE evaluates in
floating point and that have no exact rational counterpart. -/
structure ExtraOps where
  sqrtFn : Rat → Rat
  powFn : Rat → Rat → Rat

/-- Per-pixel evaluation of a formula, modelling `ee.Image.expression`:
a masked operand masks the result, and division by zero produces a masked
(no-data) pixel, per the GEE arithmetic semantics. -/
def evalExpr (ops : ExtraOps) : IndexExpr → (String → Option Rat) → Option Rat
  | .var v, env => env v
  | .const q, _ => some q
  | .add a b, env =>
    match evalExpr ops a env, evalExpr ops b env with
    | some x, some y => some (x + y)
    | _, _ => none
  | .sub a b, env =>
    match evalExpr ops a env, evalExpr ops b env with
    | some x, some y => some (x - y)
    | _, _ => none
  | .mul a b, env =>
    match evalExpr ops a env, evalExpr ops b env with
    | some x, some y => some (x * y)
    | _, _ => none
  | .div a b, env =>
    match evalExpr ops a env, evalExpr ops b env with
    | some x, some y => if y = 0 then none else some (x / y)
    | _, _ => none
  | .sqrtE a, env => (evalExpr ops a env).map ops.sqrtFn
  | .powE a b, env =>
    match evalExpr ops a env, evalExpr ops b env with
    | some x, some y => some (ops.powFn x y)
    | _, _ => none

/-- Transcribes `"(NIR - RED) / (NIR + RED)"`. -/
def ndviExpr : IndexExpr :=
  .div (.sub (.var "NIR") (.var "RED")) (.add (.var "NIR") (.var "RED"))

/-- Transcribes `"2.5 * ((NIR - RED) / (NIR + 6 * RED - 7.5 * BLUE + 1))"`. -/
def eviExpr : IndexExpr :=
  .mul (.const (5/2))
    (.div (.sub (.var "NIR") (.var "RED"))
      (.add (.sub (.add (.var "NIR") (.mul (.const 6) (.var "RED")))
        (.mul (.const (15/2)) (.var "BLUE"))) (.const 1)))

/-- Transcribes `"((NIR - RED) / (NIR + RED + L)) * (1 + L)"`. -/
def saviExpr : IndexExpr :=
  .mul (.div (.sub (.var "NIR") (.var "RED"))
    (.add (.add (.var "NIR") (.var "RED")) (.var "L")))
    (.add (.const 1) (.var "L"))

/-- Transcribes `"(GREEN - NIR) / (GREEN + NIR)"`. -/
def ndwiExpr : IndexExpr :=
  .div (.sub (.var "GREEN") (.var "NIR")) (.add (.var "GREEN") (.var "NIR"))

/-- Transcribes `"(NIR - GREEN) / (NIR + GREEN)"`. -/
def gndviExpr : IndexExpr :=
  .div (.sub (.var "NIR") (.var "GREEN")) (.add (.var "NIR") (.var "GREEN"))

/-- Transcribes `"(NIR - RED_EDGE) / (NIR + RED_EDGE)"`. -/
def ndreExpr : IndexExpr :=
  .div (.sub (.var "NIR") (.var "RED_EDGE")) (.add (.var "NIR") (.var "RED_EDGE"))

/-- Transcribes `"(2 * NIR + 1 - sqrt(pow((2 * NIR + 1), 2) - 8 * (NIR - RED)) ) / 2"`. -/
def msavi2Expr : IndexExpr :=
  .div
    (.sub (.add (.mul (.const 2) (.var "NIR")) (.const 1))
      (.sqrtE (.sub (.powE (.add (.mul (.const 2) (.var "NIR")) (.const 1)) (.const 2))
        (.mul (.const 8) (.sub (.var "NIR") (.var "RED"))))))
    (.const 2)

/-- Transcribes `"(NIR - (2 * RED - BLUE)) / (NIR + (2 * RED - BLUE))"`. -/
def arviExpr : IndexExpr :=
  .div (.sub (.var "NIR") (.sub (.mul (.const 2) (.var "RED")) (.var "BLUE")))
    (.add (.var "NIR") (.sub (.mul (.const 2) (.var "RED")) (.var "BLUE")))

/-- Transcribes `"(RED - BLUE) / (RED + BLUE)"`. -/
def priExpr : IndexExpr :=
  .div (.sub (.var "RED") (.var "BLUE")) (.add (.var "RED") (.var "BLUE"))

/-- Transcribes `"NIR / GREEN"`. -/
def wbiExpr : IndexExpr :=
  .div (.var "NIR") (.var "GREEN")

/-- The `indexes` dictionary of `app.py` (lines 62-73): index name →
formula; `none` models the `KeyError` raised on an unknown key. -/
def indexes (name : String) : Option IndexExpr :=
  if name = "NDVI" then some ndviExpr
  else if name = "EVI" then some eviExpr
  else if name = "SAVI" then some saviExpr
  else if name = "NDWI" then some ndwiExpr
  else if name = "GNDVI" then some gndviExpr
  else if name = "NDRE" then some ndreExpr
  else if name = "MSAVI2" then some msavi2Expr
  else if name = "ARVI" then some arviExpr
  else if name = "PRI" then some priExpr
  else if name = "WBI" then some wbiExpr
  else none

/-- Models `ee.Image.updateMask(m)`: a pixel of any band stays valid only
where the mask raster holds a valid, nonzero value. -/
def updateMask (img : EEImage) (m : Nat → Option Rat) : EEImage :=
  { bandNames := img.bandNames
    pix := fun b p =>
      match m p with
      | some v => if v = 0 then none else img.pix b p
      | none => none }

/-- Models `ee.Image.bitwiseAnd` on an unsigned-integer-valued quality band:
the pixel value (a non-negative integer embedded in `Rat`) is bitwise-ANDed
with the dataset's bitmask. -/
def eeAnd (v : Rat) (m : Nat) : Nat := v.num.toNat &&& m

/-- The body of `mask_clouds` once the dataset's cloud-mask entry is known:
`image.select(band).bitwiseAnd(value).eq(0)` then `image.updateMask(...)`. -/
def applyCloudMask (cm : CloudMask) (image : EEImage) : EEImage :=
  let cloud_mask : Nat → Option Rat := fun p =>
    (image.pix cm.band p).map (fun v => if eeAnd v cm.value = 0 then 1 else 0)
  updateMask image cloud_mask

/-- Embeds `mask_clouds` of `app.py` (lines 77-81).  The function subscripts
`datasets[dataset]['cloud_mask_band']`; for a dataset without that key
(Sentinel-2) the subscript raises `KeyError`, modelled by `none`. -/
def mask_clouds (image : EEImage) (dataset : DatasetName) : Option EEImage :=
  match (datasets dataset).cloud_mask with
  | none => none
  | some cm => some (applyCloudMask cm image)

/-- Embeds `get_filtered_images` of `app.py` (lines 85-96).  The remote scene
catalogue is abstracted as a map from collection id to its scene list.
`filterDate` receives the strings `f"{year}-01-01"` and `f"{year}-12-31"`;
`none` models an exception escaping the collection `map` (never the case
for the datasets in the registry, all of which carry a cloud mask). -/
def get_filtered_images (catalog : String → List Scene) (satellite : DatasetName)
    (year : Nat) (region : Geometry) : Option (List Scene) :=
  let dataset := datasets satellite
  let filtered_images :=
    filterDate (filterBounds (catalog dataset.collection) region) (jan1 year) (dec31 year)
  if satellite = DatasetName.sentinel2 then
    some ((filtered_images.filter (fun s => scenePropLt s "CLOUDY_PIXEL_PERCENTAGE" 20)).filter
      (fun s => scenePropLt s "SNOW_ICE_PERCENTAGE" 20))
  else
    filtered_images.mapM (fun s => (mask_clouds s.img satellite).map (fun i => { s with img := i }))

/-- Median of a list of values: middle element of the sorted list, or the
mean of the two middle elements for an even count; `none` on the empty
list (an empty stack reduces to an all-masked pixel). -/
def listMedian (xs : List Rat) : Option Rat :=
  let s := xs.mergeSort (fun a b => decide (a ≤ b))
  if s.length = 0 then none
  else if s.length % 2 = 1 then s.getD (s.length / 2) 0
  else some ((s.getD (s.length / 2 - 1) 0 + s.getD (s.length / 2) 0) / 2)

/-- Models `ee.ImageCollection.median()`: the per-pixel, per-band median
over the valid pixels of the stack. -/
def collectionMedian (scenes : List Scene) : EEImage :=
  { bandNames := ((scenes.head?).map (fun s => s.img.bandNames)).getD []
    pix := fun b p => listMedian (scenes.filterMap (fun s => s.img.pix b p)) }

/-- Models `ee.Image.clip(region)`: pixels outside the geometry are masked. -/
def clipImg (img : EEImage) (region : Geometry) : EEImage :=
  { bandNames := img.bandNames
    pix := fun b p => if List.contains region p then img.pix b p else none }

/-- The composite built inside `calc_index` (and `add_rgb_layer_to_map`):
`get_filtered_images(...).median()`, then `clip(region)` when requested. -/
def compositeImage (catalog : String → List Scene) (satellite : DatasetName)
    (year : Nat) (region : Geometry) (clip : Bool) : Option EEImage :=
  (get_filtered_images catalog satellite year region).map (fun scenes =>
    let image := collectionMedian scenes
    if clip then clipImg image region else image)

/-- The valid (unmasked) values of band `b` of `img` inside `region`;
masked pixels are excluded from every zonal statistic. -/
def valsOf (img : EEImage) (b : String) (region : Geometry) : List Rat :=
  region.filterMap (img.pix b)

/-- Mean of a value list (`none` when no valid pixel exists). -/
def listMean (xs : List Rat) : Option Rat :=
  match xs with
  | [] => none
  | _ => some (xs.sum / xs.length)

/-- Minimum of a value list. -/
def listMin (xs : List Rat) : Option Rat :=
  match xs with
  | [] => none
  | x :: t => some (t.foldl (fun a b => if b < a then b else a) x)

/-- Maximum of a value list. -/
def listMax (xs : List Rat) : Option Rat :=
  match xs with
  | [] => none
  | x :: t => some (t.foldl (fun a b => if a < b then b else a) x)

/-- Standard deviation of a value list; the square root is taken by the
abstract floating-point operation. -/
def listStdDev (ops : ExtraOps) (xs : List Rat) : Option Rat :=
  match listMean xs with
  | none => none
  | some m => some (ops.sqrtFn ((xs.map (fun x => (x - m) * (x - m))).sum / xs.length))

/-- Models the `reduceRegion` call of `calc_index`: the combined
mean / minMax / stdDev reducer applied to each band of `img` over
`region`, returning a dictionary keyed `"<band>_<stat>"` (a `none` value
models the `null` GEE returns when no valid pixel exists). -/
def reduceRegionStats (ops : ExtraOps) (img : EEImage) (region : Geometry) :
    List (String × Option Rat) :=
  img.bandNames.flatMap (fun b =>
    let vals := valsOf img b region
    [(b ++ "_mean", listMean vals), (b ++ "_min", listMin vals),
     (b ++ "_max", listMax vals), (b ++ "_stdDev", listStdDev ops vals)])

/-- The variable dictionary of the `image.expression` call in `calc_index`
(lines 135-141 of `app.py`): each role name is bound to the single-band
selection of the corresponding positional band of the profile
(`red_band = bands[0]`, `blue_band = bands[1]`, `green_band = bands[2]`,
`nir_band = bands[3]`, `red_edge_band = bands[4]`), and `L` to 0.5. -/
def bandEnv (bands : List String) (image : EEImage) (p : Nat) : String → Option Rat :=
  fun v =>
    if v = "RED" then (image.select (bands.getD 0 "")).pix (bands.getD 0 "") p
    else if v = "BLUE" then (image.select (bands.getD 1 "")).pix (bands.getD 1 "") p
    else if v = "GREEN" then (image.select (bands.getD 2 "")).pix (bands.getD 2 "") p
    else if v = "NIR" then (image.select (bands.getD 3 "")).pix (bands.getD 3 "") p
    else if v = "RED_EDGE" then (image.select (bands.getD 4 "")).pix (bands.getD 4 "") p
    else if v = "L" then some (1/2)
    else none

/-- The raster produced by `image.expression(...).rename(index_name)` in
`calc_index`: the formula evaluated per pixel under `bandEnv`, as a
single-band image named after the index. -/
def indexImageOf (ops : ExtraOps) (satellite : DatasetName) (index_name : String)
    (formula : IndexExpr) (image : EEImage) : EEImage :=
  { bandNames := [index_name]
    pix := fun b p =>
      if b = index_name then evalExpr ops formula (bandEnv (datasets satellite).bands image p)
      else none }

/-- Embeds `calc_index` of `app.py` (lines 122-155): median composite, optional
clip, role binding (`RED`→`bands[0]`, `BLUE`→`bands[1]`, `GREEN`→`bands[2]`,
`NIR`→`bands[3]`, `RED_EDGE`→`bands[4]`, `L`→0.5), per-pixel formula
evaluation renamed to the index name, and zonal statistics; `none` models
the `KeyError` on an unknown index name. -/
def calc_index (catalog : String → List Scene) (ops : ExtraOps) (satellite : DatasetName)
    (index_name : String) (year : Nat) (region : Geometry) (clip : Bool) :
    Option (EEImage × List (String × Option Rat)) :=
  match compositeImage catalog satellite year region clip with
  | none => none
  | some image =>
    match indexes index_name with
    | none => none
    | some formula =>
      let index : EEImage := indexImageOf ops satellite index_name formula image
      some (index, reduceRegionStats ops index region)

/-- Models Python's `str.lower` (on the ASCII field names it is applied
to): every character lowered. -/
def pyLower (s : String) : String := ⟨s.data.map Char.toLower⟩

/-- One iteration of the year loop of `plot_index_over_time`
(`pages/graph.py` lines 23-26): run `calc_index` for the year with
`clip=False` and append `stats[f"{index_name}_{data.lower()}"]` to every
requested column; `none` models an exception (unknown index, or a missing
statistics key). -/
def seriesStep (catalog : String → List Scene) (ops : ExtraOps) (satellite : DatasetName)
    (index_name : String) (region : Geometry)
    (acc : List (String × List (Option Rat))) (year : Nat) :
    Option (List (String × List (Option Rat))) :=
  match calc_index catalog ops satellite index_name year region false with
  | none => none
  | some pr =>
    acc.mapM (fun (entry : String × List (Option Rat)) =>
      ((pr.2).lookup (index_name ++ "_" ++ pyLower entry.1)).map
        (fun v => (entry.1, entry.2 ++ [v])))

/-- Embeds `plot_index_over_time` of `pages/graph.py` (lines 19-42), restricted to
the data it assembles (the matplotlib figure is presentation): the year
list `range(start_year, end_year + 1)` and, per requested column, the list
of recorded statistic values, folded year by year through `seriesStep`. -/
def plot_index_over_time (catalog : String → List Scene) (ops : ExtraOps)
    (satellite : DatasetName) (index_name : String) (start_year end_year : Nat)
    (region : Geometry) (graph_data : List String) :
    Option (List Nat × List (String × List (Option Rat))) :=
  let years := List.range' start_year (end_year + 1 - start_year)
  let init : List (String × List (Option Rat)) := graph_data.map (fun data => (data, []))
  (years.foldlM (seriesStep catalog ops satellite index_name region) init).map
    (fun dict => (years, dict))

/-- Outcome of one run of the Graph page (`pages/graph.py` `main`). -/
inductive GraphOutcome
  | plotted (result : List Nat × List (String × List (Option Rat)))
  | plotFailed
  | nothingRendered
  | rangeError

/-- The decision logic of `pages/graph.py` `main` (lines 112-128): with a
valid range and a region the series is plotted; with `start_year >
end_year` the page only shows the range error.  (`graph_data` is a
multiselect value and is never `None` in the source.) -/
def graph_page (catalog : String → List Scene) (ops : ExtraOps) (satellite : DatasetName)
    (index_name : String) (start_year end_year : Nat) (region : Option Geometry)
    (graph_data : List String) : GraphOutcome :=
  if start_year ≤ end_year then
    match region with
    | some r =>
      match plot_index_over_time catalog ops satellite index_name start_year end_year r graph_data with
      | some res => .plotted res
      | none => .plotFailed
    | none => .nothingRendered
  else .rangeError

/-- The point-of-interest logic shared by `app.py` `main` (lines 176-181)
and `pages/graph.py` `main` (lines 60-65): `coordinates` stays `None`
unless `long != 0 and lat != 0`. -/
def point_of_interest (long lat : Rat) : Option (Rat × Rat) :=
  if long ≠ 0 ∧ lat ≠ 0 then some (long, lat) else none

/-- Models Python's `str.endswith`: suffix test on the character list. -/
def strEndsWith (s suffixStr : String) : Bool :=
  List.isSuffixOf suffixStr.data s.data

/-- The shapefile search of the upload handlers (`os.walk` loop): the first
extracted file whose name ends in `".shp"`. -/
def find_shapefile (files : List String) : Option String :=
  files.find? (fun f => strEndsWith f ".shp")

/-- Result of one run of the upload-handling block.  `crash` records an
uncaught exception aborting the page script. -/
structure UploadOutcome where
  errors : List String
  crash : Option String
  roi : Option Geometry
  deriving DecidableEq

/-- The upload-handling block of `pages/graph.py` `main` (lines 72-93); the
block of `app.py` `main` (lines 186-224) has the same structure.  A
shapefile parses to a feature table (a list of feature geometries, combined
into the region by `geemap.geopandas_to_ee`).  When no `.shp` member
exists, the code calls `st.error(...)` and then still evaluates
`gdf.empty` although `gdf` was never assigned, raising `NameError`; when
the table is empty, no error is shown and `roi` silently stays `None`. -/
def handle_upload (files : List String) (read_file : String → List Geometry) : UploadOutcome :=
  match find_shapefile files with
  | some shapefile_path =>
    let gdf := read_file shapefile_path
    if gdf ≠ [] then
      { errors := [], crash := none, roi := some gdf.flatten }
    else
      { errors := [], crash := none, roi := none }
  | none =>
    { errors := ["Shapefile (.shp) not found in the uploaded zip file."]
      crash := some "NameError"
      roi := none }

/-- Modelled from the spec (§4.5 step 2), for the refinement claim about
role binding: `RED`→`band_roles[0]`, `BLUE`→`band_roles[1]`,
`GREEN`→`band_roles[2]`, `NIR`→`band_roles[3]`, `RED_EDGE`→`band_roles[4]`,
and the constant `L`→0.5, each role reading the corresponding concrete
band of the composite at the pixel. -/
def roleBindingSpec (bands : List String) (img : EEImage) (p : Nat) :
    String → Option Rat := fun v =>
  if v = "RED" then img.pix (bands.getD 0 "") p
  else if v = "BLUE" then img.pix (bands.getD 1 "") p
  else if v = "GREEN" then img.pix (bands.getD 2 "") p
  else if v = "NIR" then img.pix (bands.getD 3 "") p
  else if v = "RED_EDGE" then img.pix (bands.getD 4 "") p
  else if v = "L" then some (1/2)
  else none

/-- An image with no bands and every pixel masked. -/
def emptyImage : EEImage := { bandNames := [], pix := fun _ _ => none }

/-- A Landsat-8-shaped test scene with constant band values and a clear
(zero) quality band, covering pixel 0, acquired December 31, 2020. -/
def dec31Scene : Scene :=
  { img :=
      { bandNames := ["SR_B2", "SR_B3", "SR_B4", "SR_B5", "QA_PIXEL"]
        pix := fun b p =>
          if p = 0 then
            if b = "QA_PIXEL" then some 0
            else if b = "SR_B4" then some 2
            else if b = "SR_B5" then some 4
            else if b = "SR_B2" then some 1
            else if b = "SR_B3" then some 3
            else none
          else none }
    footprint := [0]
    date := ⟨2020, dec31doy 2020⟩
    props := fun _ => none }

/-- The same scene acquired one day earlier, on December 30, 2020. -/
def dec30Scene : Scene :=
  { dec31Scene with date := ⟨2020, dec31doy 2020 - 1⟩ }

/-- A remote catalogue whose Landsat-8 collection holds exactly the
December 31 scene. -/
def dec31Catalog : String → List Scene :=
  fun c => if c = "LANDSAT/LC08/C02/T1_L2" then [dec31Scene] else []

/-- A remote catalogue whose Landsat-8 collection holds the December 30
and December 31 scenes. -/
def decCatalog : String → List Scene :=
  fun c => if c = "LANDSAT/LC08/C02/T1_L2" then [dec30Scene, dec31Scene] else []

/-- A one-pixel image whose `QA_PIXEL` band reads `0b000010` (bit 1 set)
and whose `SR_B3` band reads 7. -/
def qaBit1Image : EEImage :=
  { bandNames := ["SR_B3", "QA_PIXEL"]
    pix := fun b p =>
      if p = 0 then
        if b = "QA_PIXEL" then some 2
        else if b = "SR_B3" then some 7
        else none
      else none }

/-- A one-pixel image whose `QA_PIXEL` band reads 0 (all quality bits
clear) and whose `SR_B3` band reads 7. -/
def qaClearImage : EEImage :=
  { bandNames := ["SR_B3", "QA_PIXEL"]
    pix := fun b p =>
      if p = 0 then
        if b = "QA_PIXEL" then some 0
        else if b = "SR_B3" then some 7
        else none
      else none }

/-- A single-band raster named `NDVI` holding `1/3` at pixel 0 and an
undefined (no-data) value at pixel 1. -/
def ndviPartialImage : EEImage :=
  { bandNames := ["NDVI"]
    pix := fun b p =>
      if b = "NDVI" then if p = 0 then some (1/3) else none
      else none }

/-- The binding `RED = 0.2`, `NIR = 0.4` (arbitrary reflectance units). -/
def envRedNir : String → Option Rat := fun v =>
  if v = "RED" then some (1/5) else if v = "NIR" then some (2/5) else none

/-- The binding `RED = 0`, `NIR = 0`. -/
def envZero : String → Option Rat := fun v =>
  if v = "RED" then some 0 else if v = "NIR" then some 0 else none

/-- A trivial instantiation of the abstract floating-point operations. -/
def opsZero : ExtraOps := { sqrtFn := fun _ => 0, powFn := fun _ _ => 0 }

/-! ### Helper lemmas -/

/-- Mapping an always-successful `Option`-valued function over a list
succeeds with the mapped list. -/
theorem mapM_option_map {α β : Type} (f : α → Option β) (g : α → β)
    (hf : ∀ a, f a = some (g a)) : ∀ l : List α, l.mapM f = some (l.map g) := by
  intro l
  rw [← List.mapM'_eq_mapM]
  induction l with
  | nil => rfl
  | cons a t ih => simp [List.mapM'_cons, hf a, ih]

/-- A dataset other than Sentinel-2 carries a cloud-mask entry. -/
theorem cloud_mask_of_ne_sentinel2 (d : DatasetName) (hd : d ≠ DatasetName.sentinel2) :
    ∃ cm, (datasets d).cloud_mask = some cm := by
  cases d with
  | sentinel2 => exact absurd rfl hd
  | landsat5 => exact ⟨_, rfl⟩
  | landsat7 => exact ⟨_, rfl⟩
  | landsat8 => exact ⟨_, rfl⟩
  | modis => exact ⟨_, rfl⟩

/-- Applying `mask_clouds` with a dataset that has a cloud-mask entry succeeds. -/
theorem mask_clouds_eq_of_cloud_mask (d : DatasetName) (cm : CloudMask)
    (hcm : (datasets d).cloud_mask = some cm) (img : EEImage) :
    mask_clouds img d = some (applyCloudMask cm img) := by
  simp [mask_clouds, hcm]

/-- For a non-Sentinel-2 dataset, `get_filtered_images` returns the
bounds- and date-filtered scenes with the cloud mask applied to each. -/
theorem get_filtered_images_eq_map (d : DatasetName) (cm : CloudMask)
    (hd : d ≠ DatasetName.sentinel2) (hcm : (datasets d).cloud_mask = some cm)
    (catalog : String → List Scene) (year : Nat) (region : Geometry) :
    get_filtered_images catalog d year region =
      some ((filterDate (filterBounds (catalog (datasets d).collection) region)
        (jan1 year) (dec31 year)).map (fun s => { s with img := applyCloudMask cm s.img })) := by
  unfold get_filtered_images
  rw [if_neg hd]
  exact mapM_option_map _ _ (fun s => by rw [mask_clouds_eq_of_cloud_mask d cm hcm]; rfl) _

/-- The function `get_filtered_images` never fails on the registered datasets. -/
theorem get_filtered_images_isSome (catalog : String → List Scene) (d : DatasetName)
    (year : Nat) (region : Geometry) :
    ∃ scenes, get_filtered_images catalog d year region = some scenes := by
  by_cases hd : d = DatasetName.sentinel2
  · subst hd
    exact ⟨_, rfl⟩
  · obtain ⟨cm, hcm⟩ := cloud_mask_of_ne_sentinel2 d hd
    exact ⟨_, get_filtered_images_eq_map d cm hd hcm catalog year region⟩

/-- The median composite always exists. -/
theorem compositeImage_isSome (catalog : String → List Scene) (d : DatasetName)
    (year : Nat) (region : Geometry) (clip : Bool) :
    ∃ img, compositeImage catalog d year region clip = some img := by
  obtain ⟨scenes, h⟩ := get_filtered_images_isSome catalog d year region
  refine ⟨if clip then clipImg (collectionMedian scenes) region else collectionMedian scenes, ?_⟩
  simp [compositeImage, h]

/-! ### Claims -/

/-- C1.  The temporal compositor is claimed to select exactly the scenes
intersecting the region with acquisition date in the INCLUSIVE range
`[year-01-01, year-12-31]`.  The code passes `f"{year}-12-31"` as the end
argument of `filterDate`, whose end bound is exclusive, so a scene acquired
on December 31 of the requested year is dropped: with a catalogue holding
exactly one Landsat-8 scene that intersects the region and is acquired on
2020-12-31 — a date inside the claimed inclusive range — the filtered
collection is empty, while the same scene moved to December 30 is kept
(and cloud-masked). -/
theorem dec31_scene_excluded :
    intersects dec31Scene.footprint [0] = true ∧
    dec31Scene.date = ⟨2020, dec31doy 2020⟩ ∧
    dateLe (jan1 2020) dec31Scene.date = true ∧
    dateLe dec31Scene.date (dec31 2020) = true ∧
    get_filtered_images dec31Catalog DatasetName.landsat8 2020 [0] = some [] ∧
    get_filtered_images decCatalog DatasetName.landsat8 2020 [0] =
      some [{ dec30Scene with img := applyCloudMask ⟨"QA_PIXEL", 62⟩ dec30Scene.img }] :=
  ⟨rfl, rfl, by decide, by decide, rfl, rfl⟩

/-- C2 (counterexample).  The claim states that every point other than
`(0, 0)` — in particular longitude 0 with a nonzero latitude — is treated
as an active point region.  The source guards with
`if long != 0 and lat != 0`, so the point `(0, 5)`, which differs from
`(0, 0)`, is nevertheless treated as unset. -/
theorem point_zero_longitude_ignored :
    point_of_interest 0 5 = none ∧ ((0 : Rat), (5 : Rat)) ≠ ((0 : Rat), (0 : Rat)) := by
  decide

/-- C2 (amended).  A point region is treated as unset exactly when AT
LEAST ONE of its coordinates is zero; only points with both coordinates
nonzero become the active point region. -/
theorem point_region_unset_iff (long lat : Rat) :
    (point_of_interest long lat = none ↔ (long = 0 ∨ lat = 0)) ∧
    (point_of_interest long lat = some (long, lat) ↔ (long ≠ 0 ∧ lat ≠ 0)) := by
  by_cases h : long ≠ 0 ∧ lat ≠ 0
  · have e : point_of_interest long lat = some (long, lat) := by
      unfold point_of_interest
      rw [if_pos h]
    rw [e]
    simp [h.1, h.2]
  · have e : point_of_interest long lat = none := by
      unfold point_of_interest
      rw [if_neg h]
    have h' : long = 0 ∨ lat = 0 := by tauto
    rw [e]
    constructor
    · simpa using h'
    · simp
      tauto

/-- C3.  The claim says a zip with no `.shp` member (or an empty parsed
feature table) is reported as an error without crashing the session and
without a silent empty region.  On a zip with no `.shp` member the code
shows the error message but then still evaluates `gdf.empty` on the never
assigned variable `gdf`, raising `NameError` and aborting the page run;
on a shapefile parsing to an empty table it shows no error at all,
silently leaving the region unset.  (The third conjunct shows the normal
path for contrast: a non-empty table sets the region with no error.) -/
theorem upload_error_handling_violated :
    handle_upload ["border.dbf", "border.prj"] (fun _ => [[0]]) =
      { errors := ["Shapefile (.shp) not found in the uploaded zip file."]
        crash := some "NameError", roi := none } ∧
    handle_upload ["border.shp"] (fun _ => []) =
      { errors := [], crash := none, roi := none } ∧
    handle_upload ["border.shp"] (fun _ => [[0]]) =
      { errors := [], crash := none, roi := some [0] } := by
  refine ⟨rfl, by decide, by decide⟩

/-- C4 (counterexample).  The claim says applying the cloud-masking policy
with a profile lacking a cloud-mask entry (the Sentinel-2 profile) returns
the input unchanged without failing.  `mask_clouds` subscripts
`datasets[dataset]['cloud_mask_band']`, which raises `KeyError` (modelled
by `none`) for Sentinel-2 instead of returning the image. -/
theorem mask_clouds_sentinel2_fails :
    (datasets DatasetName.sentinel2).cloud_mask = none ∧
    mask_clouds emptyImage DatasetName.sentinel2 = none ∧
    mask_clouds emptyImage DatasetName.sentinel2 ≠ some emptyImage := by
  refine ⟨rfl, rfl, by simp [mask_clouds, datasets]⟩

/-- C4 (amended).  `mask_clouds` fails with `KeyError` exactly on profiles
without a cloud-mask entry; the pipeline never applies it to Sentinel-2,
whose filtered scenes are taken from the catalogue unchanged (scene-level
quality filters only). -/
theorem mask_clouds_requires_cloud_mask :
    (∀ (img : EEImage) (d : DatasetName),
      mask_clouds img d = none ↔ (datasets d).cloud_mask = none) ∧
    (∀ (catalog : String → List Scene) (year : Nat) (region : Geometry)
      (scenes : List Scene),
      get_filtered_images catalog DatasetName.sentinel2 year region = some scenes →
      ∀ s ∈ scenes, s ∈ catalog (datasets DatasetName.sentinel2).collection) := by
  constructor
  · intro img d
    cases hd : (datasets d).cloud_mask <;> simp [mask_clouds, hd]
  · intro catalog year region scenes h s hs
    unfold get_filtered_images at h
    rw [if_pos rfl] at h
    obtain rfl := (Option.some.injEq _ _).mp h
    exact List.mem_of_mem_filter (List.mem_of_mem_filter
      (List.mem_of_mem_filter (List.mem_of_mem_filter hs)))

/-- Witness for C4 (amended): the iff at a concrete image and dataset, and
the Sentinel-2 part at a concrete empty catalogue. -/
theorem mask_clouds_requires_cloud_mask_witness :
    (mask_clouds emptyImage DatasetName.landsat7 = none ↔
      (datasets DatasetName.landsat7).cloud_mask = none) ∧
    (∀ s ∈ ([] : List Scene),
      s ∈ (fun _ => ([] : List Scene)) (datasets DatasetName.sentinel2).collection) :=
  ⟨mask_clouds_requires_cloud_mask.1 emptyImage DatasetName.landsat7,
    mask_clouds_requires_cloud_mask.2 (fun _ => []) 2020 [0] [] rfl⟩

/-- C5.  With `start_year > end_year` the Graph page takes the `st.error`
branch (`InvalidRange`) for EVERY remote catalogue and every dataset,
index, region and field selection: the outcome is the bare range error, so
`plot_index_over_time` — and with it the index evaluator `calc_index` —
is never invoked and no remote call is issued. -/
theorem graph_page_invalid_range (catalog : String → List Scene) (ops : ExtraOps)
    (satellite : DatasetName) (index_name : String) (start_year end_year : Nat)
    (region : Option Geometry) (graph_data : List String)
    (h : end_year < start_year) :
    graph_page catalog ops satellite index_name start_year end_year region graph_data =
      GraphOutcome.rangeError := by
  unfold graph_page
  rw [if_neg (by omega)]

/-- Witness for C5: the 2018→2016 scenario of the spec. -/
theorem graph_page_invalid_range_witness :
    graph_page (fun _ => []) opsZero DatasetName.landsat8 "NDVI" 2018 2016
      (some [0]) ["Max", "Mean", "Min"] = GraphOutcome.rangeError :=
  graph_page_invalid_range (fun _ => []) opsZero DatasetName.landsat8 "NDVI" 2018 2016
    (some [0]) ["Max", "Mean", "Min"] (by decide)

/-- C9.  Index evaluation follows standard arithmetic with division by
zero propagating as a no-data pixel rather than an exception: the NDVI
formula of the registry evaluates to `(0.4-0.2)/(0.4+0.2) = 1/3` on
`RED=0.2, NIR=0.4`, to no-data on `RED=NIR=0`, and no-data pixels are
excluded from the zonal statistics (generally, and concretely: the mean
over a region holding one `1/3` pixel and one no-data pixel is `1/3`). -/
theorem ndvi_division_semantics :
    indexes "NDVI" = some ndviExpr ∧
    (∀ ops : ExtraOps, evalExpr ops ndviExpr envRedNir = some (1/3)) ∧
    (∀ ops : ExtraOps, evalExpr ops ndviExpr envZero = none) ∧
    (∀ (img : EEImage) (b : String) (p : Nat) (region : Geometry),
      img.pix b p = none → valsOf img b (p :: region) = valsOf img b region) ∧
    (∀ ops : ExtraOps,
      (reduceRegionStats ops ndviPartialImage [0, 1]).lookup "NDVI_mean" =
        some (some (1/3))) := by
  refine ⟨rfl, ?_, ?_, ?_, ?_⟩
  · intro ops
    simp +decide [evalExpr, ndviExpr, envRedNir]
    norm_num
  · intro ops
    simp +decide [evalExpr, ndviExpr, envZero]
  · intro img b p region h
    simp [valsOf, h]
  · intro ops
    simp +decide [reduceRegionStats, valsOf, ndviPartialImage, listMean, listMin,
      listMax, listStdDev, List.lookup]

/-- Witness for C9: the no-data-exclusion conjunct at the concrete
two-pixel raster whose pixel 1 is no-data. -/
theorem ndvi_division_semantics_witness :
    ndviPartialImage.pix "NDVI" 1 = none ∧
    valsOf ndviPartialImage "NDVI" (1 :: [0]) = valsOf ndviPartialImage "NDVI" [0] :=
  ⟨rfl, ndvi_division_semantics.2.2.2.1 ndviPartialImage "NDVI" 1 [0] rfl⟩

/-- C7.  For every dataset with a cloud-mask entry (all but Sentinel-2),
`get_filtered_images` applies the per-pixel mask to EVERY scene of the
bounds- and date-filtered stack, and the composite is the median of those
already-masked scenes; per pixel, a valid quality value keeps the pixel
exactly when its bitwise AND with the profile's bitmask is zero, and masks
it otherwise (a masked quality pixel masks the output).  For Landsat-7 the
bitmask is bits {1,3,4,5}, i.e. 58; a quality value of `0b000010` is
masked out while a quality value of 0 is kept. -/
theorem cloud_mask_applied_before_composite (d : DatasetName)
    (hd : d ≠ DatasetName.sentinel2) :
    (datasets d).cloud_mask.isSome = true ∧
    (∃ cm, (datasets d).cloud_mask = some cm ∧
      (∀ img : EEImage, mask_clouds img d = some (applyCloudMask cm img)) ∧
      (∀ (img : EEImage) (b : String) (p : Nat) (v : Rat),
        img.pix cm.band p = some v →
        (applyCloudMask cm img).pix b p =
          if eeAnd v cm.value = 0 then img.pix b p else none) ∧
      (∀ (img : EEImage) (b : String) (p : Nat),
        img.pix cm.band p = none → (applyCloudMask cm img).pix b p = none) ∧
      (∀ (catalog : String → List Scene) (year : Nat) (region : Geometry),
        get_filtered_images catalog d year region =
          some ((filterDate (filterBounds (catalog (datasets d).collection) region)
            (jan1 year) (dec31 year)).map
            (fun s => { s with img := applyCloudMask cm s.img })) ∧
        compositeImage catalog d year region false =
          some (collectionMedian
            ((filterDate (filterBounds (catalog (datasets d).collection) region)
              (jan1 year) (dec31 year)).map
              (fun s => { s with img := applyCloudMask cm s.img }))))) ∧
    ((datasets DatasetName.landsat7).cloud_mask = some ⟨"QA_PIXEL", 58⟩ ∧
      (applyCloudMask ⟨"QA_PIXEL", 58⟩ qaBit1Image).pix "SR_B3" 0 = none ∧
      (applyCloudMask ⟨"QA_PIXEL", 58⟩ qaClearImage).pix "SR_B3" 0 = some 7) := by
  obtain ⟨cm, hcm⟩ := cloud_mask_of_ne_sentinel2 d hd
  refine ⟨by rw [hcm]; rfl, ⟨cm, hcm, ?_, ?_, ?_, ?_⟩, by decide, rfl, rfl⟩
  · exact mask_clouds_eq_of_cloud_mask d cm hcm
  · intro img b p v h
    by_cases hv : eeAnd v cm.value = 0 <;>
      simp [applyCloudMask, updateMask, h, hv]
  · intro img b p h
    simp [applyCloudMask, updateMask, h]
  · intro catalog year region
    refine ⟨get_filtered_images_eq_map d cm hd hcm catalog year region, ?_⟩
    simp [compositeImage, get_filtered_images_eq_map d cm hd hcm catalog year region]

/-- Witness for C7: the masking facts at Landsat-7. -/
theorem cloud_mask_applied_before_composite_witness :
    (datasets DatasetName.landsat7).cloud_mask.isSome = true :=
  (cloud_mask_applied_before_composite DatasetName.landsat7 (by decide)).1

/-- C8.  For every dataset and registered index, `calc_index` binds the
symbolic roles positionally — `RED`→`band_roles[0]`, `BLUE`→`band_roles[1]`,
`GREEN`→`band_roles[2]`, `NIR`→`band_roles[3]`, `RED_EDGE`→`band_roles[4]`,
`L`→0.5 (the spec-side binding `roleBindingSpec`) — evaluates the formula
per pixel over the composite, and names the resulting single-band raster
after the index. -/
theorem index_role_binding (catalog : String → List Scene) (ops : ExtraOps)
    (d : DatasetName) (index_name : String) (f : IndexExpr) (year : Nat)
    (region : Geometry) (clip : Bool) (hf : indexes index_name = some f) :
    ∃ (comp img : EEImage) (stats : List (String × Option Rat)),
      compositeImage catalog d year region clip = some comp ∧
      calc_index catalog ops d index_name year region clip = some (img, stats) ∧
      img.bandNames = [index_name] ∧
      (∀ (b : String) (p : Nat), b ≠ index_name → img.pix b p = none) ∧
      (∀ p : Nat, img.pix index_name p =
        evalExpr ops f (roleBindingSpec (datasets d).bands comp p)) ∧
      stats = reduceRegionStats ops img region := by
  obtain ⟨comp, hcomp⟩ := compositeImage_isSome catalog d year region clip
  refine ⟨comp, indexImageOf ops d index_name f comp, _, hcomp, ?_, rfl, ?_, ?_, rfl⟩
  · simp [calc_index, hcomp, hf]
  · intro b p hb
    simp [indexImageOf, hb]
  · intro p
    have henv : bandEnv (datasets d).bands comp p = roleBindingSpec (datasets d).bands comp p := by
      funext v
      simp [bandEnv, roleBindingSpec, EEImage.select]
    simp [indexImageOf, henv]

/-- Witness for C8: NDVI over Sentinel-2 with an empty catalogue. -/
theorem index_role_binding_witness :
    ∃ (comp img : EEImage) (stats : List (String × Option Rat)),
      compositeImage (fun _ => []) DatasetName.sentinel2 2020 [0] false = some comp ∧
      calc_index (fun _ => []) opsZero DatasetName.sentinel2 "NDVI" 2020 [0] false =
        some (img, stats) ∧
      img.bandNames = ["NDVI"] ∧
      (∀ (b : String) (p : Nat), b ≠ "NDVI" → img.pix b p = none) ∧
      (∀ p : Nat, img.pix "NDVI" p =
        evalExpr opsZero ndviExpr
          (roleBindingSpec (datasets DatasetName.sentinel2).bands comp p)) ∧
      stats = reduceRegionStats opsZero img [0] :=
  index_role_binding (fun _ => []) opsZero DatasetName.sentinel2 "NDVI" ndviExpr
    2020 [0] false rfl

/-- C10.  For every dataset except Sentinel-2, position 4 of the profile's
band list repeats position 0, so the `RED_EDGE` role is bound to the same
source band as `RED`; consequently evaluating NDRE and NDVI over the same
composite yields pixelwise-equal rasters and equal zonal-statistic values
(under the `NDRE_*` and `NDVI_*` keys respectively). -/
theorem ndre_ndvi_coincide (d : DatasetName) (hd : d ≠ DatasetName.sentinel2)
    (catalog : String → List Scene) (ops : ExtraOps) (year : Nat)
    (region : Geometry) (clip : Bool) :
    (datasets d).bands.getD 4 "" = (datasets d).bands.getD 0 "" ∧
    ∃ (imgN imgV : EEImage) (m mi ma sd : Option Rat),
      calc_index catalog ops d "NDRE" year region clip =
        some (imgN, [("NDRE_mean", m), ("NDRE_min", mi),
          ("NDRE_max", ma), ("NDRE_stdDev", sd)]) ∧
      calc_index catalog ops d "NDVI" year region clip =
        some (imgV, [("NDVI_mean", m), ("NDVI_min", mi),
          ("NDVI_max", ma), ("NDVI_stdDev", sd)]) ∧
      (∀ p : Nat, imgN.pix "NDRE" p = imgV.pix "NDVI" p) := by
  have hb : (datasets d).bands.getD 4 "" = (datasets d).bands.getD 0 "" := by
    cases d with
    | sentinel2 => exact absurd rfl hd
    | landsat5 => rfl
    | landsat7 => rfl
    | landsat8 => rfl
    | modis => rfl
  obtain ⟨comp, hcomp⟩ := compositeImage_isSome catalog d year region clip
  have hpix : ∀ p : Nat,
      (indexImageOf ops d "NDRE" ndreExpr comp).pix "NDRE" p =
        (indexImageOf ops d "NDVI" ndviExpr comp).pix "NDVI" p := by
    intro p
    have henv : bandEnv (datasets d).bands comp p "RED_EDGE" =
        bandEnv (datasets d).bands comp p "RED" := by
      have hb' : (datasets d).bands[4]?.getD "" = (datasets d).bands[0]?.getD "" := by
        rw [← List.getD_eq_getElem?_getD, ← List.getD_eq_getElem?_getD]
        exact hb
      simp [bandEnv, EEImage.select, hb']
    simp only [indexImageOf, if_pos rfl]
    simp [evalExpr, ndreExpr, ndviExpr, henv]
  have hvals : valsOf (indexImageOf ops d "NDRE" ndreExpr comp) "NDRE" region =
      valsOf (indexImageOf ops d "NDVI" ndviExpr comp) "NDVI" region := by
    unfold valsOf
    rw [funext hpix]
  refine ⟨hb, indexImageOf ops d "NDRE" ndreExpr comp,
    indexImageOf ops d "NDVI" ndviExpr comp,
    listMean (valsOf (indexImageOf ops d "NDVI" ndviExpr comp) "NDVI" region),
    listMin (valsOf (indexImageOf ops d "NDVI" ndviExpr comp) "NDVI" region),
    listMax (valsOf (indexImageOf ops d "NDVI" ndviExpr comp) "NDVI" region),
    listStdDev ops (valsOf (indexImageOf ops d "NDVI" ndviExpr comp) "NDVI" region),
    ?_, ?_, hpix⟩
  · have : indexes "NDRE" = some ndreExpr := rfl
    simp only [calc_index, hcomp, this]
    rw [← hvals]
    simp [reduceRegionStats, indexImageOf]
  · have : indexes "NDVI" = some ndviExpr := rfl
    simp only [calc_index, hcomp, this]
    simp [reduceRegionStats, indexImageOf]

/-- Witness for C10: the band coincidence at Landsat-7. -/
theorem ndre_ndvi_coincide_witness :
    (datasets DatasetName.landsat7).bands.getD 4 "" =
      (datasets DatasetName.landsat7).bands.getD 0 "" :=
  (ndre_ndvi_coincide DatasetName.landsat7 (by decide) (fun _ => [])
    opsZero 2020 [0] false).1

/-- Left-cancellation of string concatenation. -/
theorem string_append_left_cancel {s a b : String} (h : s ++ a = s ++ b) : a = b := by
  have hd := congrArg String.data h
  rw [String.data_append, String.data_append] at hd
  exact String.ext (List.append_cancel_left hd)

/-- Distinct suffixes stay distinct after prepending the same string. -/
theorem string_append_ne (s : String) {a b : String} (h : a ≠ b) : s ++ a ≠ s ++ b :=
  fun hc => h (string_append_left_cancel hc)

/-- The statistic value the series loop records for one year and one
requested column: the `stats[f"{index_name}_{data.lower()}"]` entry of
that year's `calc_index` run (with `clip=False`). -/
def statCell (catalog : String → List Scene) (ops : ExtraOps) (satellite : DatasetName)
    (index_name : String) (region : Geometry) (year : Nat) (data : String) : Option Rat :=
  match calc_index catalog ops satellite index_name year region false with
  | none => none
  | some pr => ((pr.2).lookup (index_name ++ "_" ++ pyLower data)).getD none

/-- With a registered index, `calc_index` always succeeds, producing the
index image of the composite and its zonal statistics. -/
theorem calc_index_some (catalog : String → List Scene) (ops : ExtraOps)
    (satellite : DatasetName) (index_name : String) (f : IndexExpr) (year : Nat)
    (region : Geometry) (clip : Bool) (hf : indexes index_name = some f) :
    ∃ comp, compositeImage catalog satellite year region clip = some comp ∧
      calc_index catalog ops satellite index_name year region clip =
        some (indexImageOf ops satellite index_name f comp,
          reduceRegionStats ops (indexImageOf ops satellite index_name f comp) region) := by
  obtain ⟨comp, hcomp⟩ := compositeImage_isSome catalog satellite year region clip
  exact ⟨comp, hcomp, by simp [calc_index, hcomp, hf]⟩

/-- The statistics dictionary of an index image: four entries keyed by the
index name. -/
theorem reduceRegionStats_indexImage (ops : ExtraOps) (satellite : DatasetName)
    (index_name : String) (f : IndexExpr) (comp : EEImage) (region : Geometry) :
    reduceRegionStats ops (indexImageOf ops satellite index_name f comp) region =
      [(index_name ++ "_mean",
          listMean (valsOf (indexImageOf ops satellite index_name f comp) index_name region)),
       (index_name ++ "_min",
          listMin (valsOf (indexImageOf ops satellite index_name f comp) index_name region)),
       (index_name ++ "_max",
          listMax (valsOf (indexImageOf ops satellite index_name f comp) index_name region)),
       (index_name ++ "_stdDev",
          listStdDev ops (valsOf (indexImageOf ops satellite index_name f comp) index_name region))] := by
  rfl

/-- Looking up a requested Max/Mean/Min field in the four-entry statistics
dictionary succeeds. -/
theorem stats4_lookup (iname data : String)
    (hd : data = "Max" ∨ data = "Mean" ∨ data = "Min") (m mi ma sd : Option Rat) :
    ∃ v, ([(iname ++ "_mean", m), (iname ++ "_min", mi), (iname ++ "_max", ma),
      (iname ++ "_stdDev", sd)]).lookup (iname ++ "_" ++ pyLower data) = some v := by
  have hb : ∀ a b : String, a ≠ b → ((iname ++ a == iname ++ b) = false) :=
    fun a b h => beq_eq_false_iff_ne.mpr (string_append_ne iname h)
  rcases hd with h | h | h <;> subst h
  · refine ⟨ma, ?_⟩
    have hk : iname ++ "_" ++ pyLower "Max" = iname ++ "_max" := by
      rw [String.append_assoc]
      exact congrArg (fun x => iname ++ x) (by decide)
    rw [hk]
    simp [List.lookup_cons, hb "_max" "_mean" (by decide), hb "_max" "_min" (by decide)]
  · refine ⟨m, ?_⟩
    have hk : iname ++ "_" ++ pyLower "Mean" = iname ++ "_mean" := by
      rw [String.append_assoc]
      exact congrArg (fun x => iname ++ x) (by decide)
    rw [hk]
    simp [List.lookup_cons]
  · refine ⟨mi, ?_⟩
    have hk : iname ++ "_" ++ pyLower "Min" = iname ++ "_min" := by
      rw [String.append_assoc]
      exact congrArg (fun x => iname ++ x) (by decide)
    rw [hk]
    simp [List.lookup_cons, hb "_min" "_mean" (by decide)]

/-- Mapping an always-successful `Option`-valued function over a list
(membership-restricted version). -/
theorem mapM_option_map_mem {α β : Type} (f : α → Option β) (g : α → β) :
    ∀ l : List α, (∀ a ∈ l, f a = some (g a)) → l.mapM f = some (l.map g) := by
  intro l
  rw [← List.mapM'_eq_mapM]
  induction l with
  | nil => intro _; rfl
  | cons a t ih =>
    intro hf
    simp [List.mapM'_cons, hf a (by simp),
      ih (fun x hx => hf x (List.mem_cons_of_mem a hx))]

/-- One iteration of the series loop appends exactly the recorded cell to
every requested column. -/
theorem seriesStep_eq (catalog : String → List Scene) (ops : ExtraOps)
    (satellite : DatasetName) (index_name : String) (f : IndexExpr) (region : Geometry)
    (hf : indexes index_name = some f) (year : Nat)
    (acc : List (String × List (Option Rat)))
    (hacc : ∀ e ∈ acc, e.1 = "Max" ∨ e.1 = "Mean" ∨ e.1 = "Min") :
    seriesStep catalog ops satellite index_name region acc year =
      some (acc.map (fun e =>
        (e.1, e.2 ++ [statCell catalog ops satellite index_name region year e.1]))) := by
  obtain ⟨comp, hcomp, hci⟩ :=
    calc_index_some catalog ops satellite index_name f year region false hf
  unfold seriesStep
  rw [hci]
  refine mapM_option_map_mem _ _ acc ?_
  intro e he
  rw [reduceRegionStats_indexImage]
  obtain ⟨v, hv⟩ := stats4_lookup index_name e.1 (hacc e he) _ _ _ _
  rw [hv]
  have hc : statCell catalog ops satellite index_name region year e.1 = v := by
    unfold statCell
    rw [hci]
    show (List.lookup (index_name ++ "_" ++ pyLower e.1)
      (reduceRegionStats ops (indexImageOf ops satellite index_name f comp) region)).getD none = v
    rw [reduceRegionStats_indexImage, hv]
    rfl
  rw [hc]
  rfl

/-- The series loop, fully unrolled: folding `seriesStep` over a year list
appends, to every requested column, one recorded cell per year in order. -/
theorem series_loop (catalog : String → List Scene) (ops : ExtraOps)
    (satellite : DatasetName) (index_name : String) (f : IndexExpr) (region : Geometry)
    (hf : indexes index_name = some f) :
    ∀ (years : List Nat) (acc : List (String × List (Option Rat))),
      (∀ e ∈ acc, e.1 = "Max" ∨ e.1 = "Mean" ∨ e.1 = "Min") →
      years.foldlM (seriesStep catalog ops satellite index_name region) acc =
        some (acc.map (fun e => (e.1,
          e.2 ++ years.map (fun y => statCell catalog ops satellite index_name region y e.1)))) := by
  intro years
  induction years with
  | nil =>
    intro acc hacc
    simp
  | cons y ys ih =>
    intro acc hacc
    rw [List.foldlM_cons,
      seriesStep_eq catalog ops satellite index_name f region hf y acc hacc]
    have hacc' : ∀ e ∈ acc.map (fun e =>
        (e.1, e.2 ++ [statCell catalog ops satellite index_name region y e.1])),
        e.1 = "Max" ∨ e.1 = "Mean" ∨ e.1 = "Min" := by
      intro e he
      obtain ⟨a, ha, rfl⟩ := List.mem_map.mp he
      exact hacc a ha
    show (ys.foldlM (seriesStep catalog ops satellite index_name region)
        (acc.map (fun e =>
          (e.1, e.2 ++ [statCell catalog ops satellite index_name region y e.1]))) : Option _) = _
    rw [ih _ hacc', List.map_map]
    refine congrArg some (List.map_congr_left ?_)
    intro a _
    simp [List.append_assoc]

/-- Looking up a key of a key-indexed map of pairs returns its value. -/
theorem lookup_map_pair {β : Type} (l : List String) (g : String → β) (x : String)
    (hx : x ∈ l) : (l.map (fun d => (d, g d))).lookup x = some (g x) := by
  induction l with
  | nil => cases hx
  | cons a t ih =>
    rw [List.map_cons, List.lookup_cons]
    cases hba : (x == a)
    · have hxt : x ∈ t := by
        rcases List.mem_cons.mp hx with h | h
        · subst h
          simp at hba
        · exact h
      exact ih hxt
    · have hxa : x = a := eq_of_beq hba
      rw [hxa]

/-- C6.  For `start_year ≤ end_year` the time-series assembler produces
the ascending year list `start_year, …, end_year` — exactly
`end_year - start_year + 1` entries, strictly ascending, the i-th being
`start_year + i` — and one column per requested field (exactly the
requested fields, in order), where the i-th value of each column is the
statistic that `calc_index` (invoked with `clip = false` for year
`start_year + i`) reports under the key
`f"{index_name}_{field.lower()}"`. -/
theorem series_shape (catalog : String → List Scene) (ops : ExtraOps)
    (satellite : DatasetName) (index_name : String) (f : IndexExpr)
    (start_year end_year : Nat) (region : Geometry) (graph_data : List String)
    (hy : start_year ≤ end_year) (hf : indexes index_name = some f)
    (hgd : ∀ x ∈ graph_data, x = "Max" ∨ x = "Mean" ∨ x = "Min") :
    ∃ dict : List (String × List (Option Rat)),
      plot_index_over_time catalog ops satellite index_name start_year end_year region
          graph_data =
        some (List.range' start_year (end_year + 1 - start_year), dict) ∧
      (List.range' start_year (end_year + 1 - start_year)).length =
        end_year - start_year + 1 ∧
      (List.range' start_year (end_year + 1 - start_year)).Pairwise (· < ·) ∧
      (∀ i, (hi : i < (List.range' start_year (end_year + 1 - start_year)).length) →
        (List.range' start_year (end_year + 1 - start_year)).get ⟨i, hi⟩ = start_year + i) ∧
      dict.map Prod.fst = graph_data ∧
      (∀ data ∈ graph_data, ∃ vals : List (Option Rat),
        dict.lookup data = some vals ∧
        vals.length = end_year - start_year + 1 ∧
        (∀ i, (hi : i < vals.length) →
          ∃ (img : EEImage) (stats : List (String × Option Rat)),
            calc_index catalog ops satellite index_name (start_year + i) region false =
              some (img, stats) ∧
            stats.lookup (index_name ++ "_" ++ pyLower data) =
              some (vals.get ⟨i, hi⟩))) := by
  have hinit : ∀ e ∈ graph_data.map (fun data => (data, ([] : List (Option Rat)))),
      e.1 = "Max" ∨ e.1 = "Mean" ∨ e.1 = "Min" := by
    intro e he
    obtain ⟨a, ha, rfl⟩ := List.mem_map.mp he
    exact hgd a ha
  have hloop := series_loop catalog ops satellite index_name f region hf
    (List.range' start_year (end_year + 1 - start_year))
    (graph_data.map (fun data => (data, []))) hinit
  refine ⟨graph_data.map (fun d =>
      (d, (List.range' start_year (end_year + 1 - start_year)).map
        (fun y => statCell catalog ops satellite index_name region y d))),
    ?_, ?_, ?_, ?_, ?_, ?_⟩
  · show ((List.range' start_year (end_year + 1 - start_year)).foldlM
        (seriesStep catalog ops satellite index_name region)
        (graph_data.map (fun data => (data, [])))).map
        (fun dict => (List.range' start_year (end_year + 1 - start_year), dict)) = _
    rw [hloop]
    simp [List.map_map]
  · rw [List.length_range']
    omega
  · exact List.pairwise_lt_range' start_year (end_year + 1 - start_year)
  · intro i hi
    simp [List.get_eq_getElem, List.getElem_range']
  · rw [List.map_map]
    exact List.map_id graph_data
  · intro data hd
    refine ⟨(List.range' start_year (end_year + 1 - start_year)).map
        (fun y => statCell catalog ops satellite index_name region y data), ?_, ?_, ?_⟩
    · exact lookup_map_pair graph_data _ data hd
    · rw [List.length_map, List.length_range']
      omega
    · intro i hi
      have hival : ((List.range' start_year (end_year + 1 - start_year)).map
          (fun y => statCell catalog ops satellite index_name region y data)).get ⟨i, hi⟩ =
          statCell catalog ops satellite index_name region (start_year + i) data := by
        simp [List.get_eq_getElem, List.getElem_range']
      obtain ⟨comp, hcomp, hci⟩ :=
        calc_index_some catalog ops satellite index_name f (start_year + i) region false hf
      obtain ⟨v, hv⟩ := stats4_lookup index_name data (hgd data hd)
        (listMean (valsOf (indexImageOf ops satellite index_name f comp) index_name region))
        (listMin (valsOf (indexImageOf ops satellite index_name f comp) index_name region))
        (listMax (valsOf (indexImageOf ops satellite index_name f comp) index_name region))
        (listStdDev ops (valsOf (indexImageOf ops satellite index_name f comp) index_name region))
      have hc : statCell catalog ops satellite index_name region (start_year + i) data = v := by
        unfold statCell
        rw [hci]
        show (List.lookup (index_name ++ "_" ++ pyLower data)
          (reduceRegionStats ops (indexImageOf ops satellite index_name f comp) region)).getD
            none = v
        rw [reduceRegionStats_indexImage, hv]
        rfl
      refine ⟨indexImageOf ops satellite index_name f comp,
        reduceRegionStats ops (indexImageOf ops satellite index_name f comp) region, hci, ?_⟩
      rw [reduceRegionStats_indexImage, hv, hival, hc]

/-- Witness for C6: a two-year Landsat-8 NDVI series over an empty
catalogue with the `Max` column requested. -/
theorem series_shape_witness :
    ∃ dict : List (String × List (Option Rat)),
      plot_index_over_time (fun _ => []) opsZero DatasetName.landsat8 "NDVI"
          2014 2015 [0] ["Max"] =
        some (List.range' 2014 (2015 + 1 - 2014), dict) ∧
      (List.range' 2014 (2015 + 1 - 2014)).length = 2015 - 2014 + 1 ∧
      (List.range' 2014 (2015 + 1 - 2014)).Pairwise (· < ·) ∧
      (∀ i, (hi : i < (List.range' 2014 (2015 + 1 - 2014)).length) →
        (List.range' 2014 (2015 + 1 - 2014)).get ⟨i, hi⟩ = 2014 + i) ∧
      dict.map Prod.fst = ["Max"] ∧
      (∀ data ∈ ["Max"], ∃ vals : List (Option Rat),
        dict.lookup data = some vals ∧
        vals.length = 2015 - 2014 + 1 ∧
        (∀ i, (hi : i < vals.length) →
          ∃ (img : EEImage) (stats : List (String × Option Rat)),
            calc_index (fun _ => []) opsZero DatasetName.landsat8 "NDVI" (2014 + i)
                [0] false =
              some (img, stats) ∧
            stats.lookup ("NDVI" ++ "_" ++ pyLower data) = some (vals.get ⟨i, hi⟩))) :=
  series_shape (fun _ => []) opsZero DatasetName.landsat8 "NDVI" ndviExpr 2014 2015
    [0] ["Max"] (by decide) rfl (by decide)

/-- Witness for C2 (amended): the characterisation at the point `(5, 7)`. -/
theorem point_region_unset_iff_witness :
    (point_of_interest 5 7 = none ↔ ((5 : Rat) = 0 ∨ (7 : Rat) = 0)) ∧
    (point_of_interest 5 7 = some (5, 7) ↔ ((5 : Rat) ≠ 0 ∧ (7 : Rat) ≠ 0)) :=
  point_region_unset_iff 5 7
